import Mathlib

/-!
# SqlSessionStore (store/sql_session_store.go)

A shallow embedding of the SQL-backed session store.

* The `Sessions` table is a list of rows, in the order a scan without `ORDER BY`
  visits them.  Master and replica connections read and write the same table.
* Every goroutine body is run to completion; the `StoreChannel` it writes to is
  modelled by the list of results sent on it and a `closed` flag.  A goroutine
  that returns without sending leaves the list empty.
* Whether a backend call fails is decided by the environment `Env`; a failing
  statement leaves the table unchanged.
* Go pointers: `result.Data = session` stores a pointer, so the payload that is
  delivered is the session as it is when the result is sent.
-/

namespace SqlSessionStore

/-! ## Data model -/

/-- Modelled from the spec: `model.TeamMember` is declared outside this file; the
store reads only its deletion marker `DeleteAt`, the rest of the record is carried
along unchanged (`TeamId` stands for it). -/
structure TeamMember where
  TeamId : String
  DeleteAt : Int
  deriving DecidableEq, Repr

/-- Modelled from the spec: the persisted columns of `model.Session` (the struct is
declared outside this file; the columns are those of section 3 of the spec and of
`NewSqlSessionStore`). -/
structure SessionRow where
  Id : String
  Token : String
  UserId : String
  DeviceId : String
  Roles : String
  Props : String
  CreateAt : Int
  LastActivityAt : Int
  ExpiresAt : Int
  deriving DecidableEq, Repr

/-- Modelled from the spec: `model.Session`, the persisted columns together with the
transient `TeamMembers` field, which is never written to the table. -/
structure Session extends SessionRow where
  TeamMembers : List TeamMember
  deriving DecidableEq, Repr

/-- What `model.NewLocAppError(where, id, nil, details)` records. -/
structure AppError where
  Where : String
  Id : String
  DetailedError : String
  deriving DecidableEq, Repr

/-- Builds the error value of `model.NewLocAppError(where, id, nil, details)`. -/
def NewLocAppError (place id details : String) : AppError :=
  { Where := place, Id := id, DetailedError := details }

/-- The values this store assigns to `StoreResult.Data` (an `interface{}`). -/
inductive Payload where
  | session (s : Session)
  | sessions (l : List Session)
  | str (s : String)
  | int (n : Int)
  deriving DecidableEq, Repr

/-- A `StoreResult`: `none` is Go's `nil`. -/
structure StoreResult where
  Data : Option Payload
  Err : Option AppError
  deriving DecidableEq, Repr

/-- The zero value `StoreResult{}`. -/
def StoreResult.empty : StoreResult := { Data := none, Err := none }

/-- A `StoreChannel` (buffer size 1): the results sent on it so far, and whether it
has been closed. -/
structure StoreChannel where
  sent : List StoreResult
  closed : Bool
  deriving DecidableEq, Repr

/-- The channel `make(StoreChannel, 1)`. -/
def StoreChannel.make : StoreChannel := { sent := [], closed := false }

/-- The send `storeChannel <- result`. -/
def StoreChannel.send (c : StoreChannel) (r : StoreResult) : StoreChannel :=
  { c with sent := c.sent ++ [r] }

/-- The call `close(storeChannel)`. -/
def StoreChannel.close (c : StoreChannel) : StoreChannel :=
  { c with closed := true }

/-- The receive `<-c` on a channel whose goroutine has finished: the first result
sent, or `none` when nothing was sent on an unclosed channel (the receiver blocks
forever).  A closed, drained channel yields the zero value. -/
def StoreChannel.recv (c : StoreChannel) : Option StoreResult :=
  match c.sent with
  | r :: _ => some r
  | [] => if c.closed then some StoreResult.empty else none

/-! ## The relational backend -/

/-- The statements sent through `GetMaster().Exec`, with their bound parameters. -/
inductive Stmt where
  /-- Statement `DELETE FROM Sessions WHERE Id = :Id Or Token = :Token` -/
  | deleteByIdOrToken (v : String)
  /-- Statement `DELETE FROM Sessions` -/
  | deleteAll
  /-- Statement `DELETE FROM Sessions WHERE UserId = :UserId` -/
  | deleteByUserId (userId : String)
  /-- Statement `DELETE FROM Sessions WHERE UserId = :UserId AND ExpiresAt != 0 AND :ExpiresAt > ExpiresAt` -/
  | deleteExpired (userId : String) (now : Int)
  /-- Statement `UPDATE Sessions SET LastActivityAt = :LastActivityAt WHERE Id = :Id` -/
  | updateLastActivityAt (time : Int) (id : String)
  /-- Statement `UPDATE Sessions SET Roles = :Roles WHERE UserId = :UserId` -/
  | updateRoles (roles : String) (userId : String)
  /-- Statement `UPDATE Sessions SET DeviceId = :DeviceId, ExpiresAt = :ExpiresAt WHERE Id = :Id` -/
  | updateDeviceId (deviceId : String) (expiresAt : Int) (id : String)
  deriving DecidableEq, Repr

/-- The `WHERE` clause of the cleanup statement. -/
def isExpiredFor (userId : String) (now : Int) (r : SessionRow) : Bool :=
  decide (r.UserId = userId) && decide (r.ExpiresAt ≠ 0) && decide (now > r.ExpiresAt)

/-- The effect of a successful statement on the table. -/
def Stmt.run : Stmt → List SessionRow → List SessionRow
  | .deleteByIdOrToken v, t => t.filter (fun r => !(decide (r.Id = v) || decide (r.Token = v)))
  | .deleteAll, _ => []
  | .deleteByUserId u, t => t.filter (fun r => !decide (r.UserId = u))
  | .deleteExpired u now, t => t.filter (fun r => !isExpiredFor u now r)
  | .updateLastActivityAt time id, t =>
      t.map (fun r => if r.Id = id then { r with LastActivityAt := time } else r)
  | .updateRoles roles u, t =>
      t.map (fun r => if r.UserId = u then { r with Roles := roles } else r)
  | .updateDeviceId deviceId expiresAt id, t =>
      t.map (fun r => if r.Id = id then { r with DeviceId := deviceId, ExpiresAt := expiresAt } else r)

/-- The queries sent through `GetReplica().Select`, with their bound parameters. -/
inductive Query where
  /-- Query `SELECT * FROM Sessions WHERE Token = :Token OR Id = :Id LIMIT 1` -/
  | byTokenOrId (v : String)
  /-- Query `SELECT * FROM Sessions WHERE UserId = :UserId ORDER BY LastActivityAt DESC` -/
  | byUserId (userId : String)
  deriving DecidableEq, Repr

/-- The order of `ORDER BY LastActivityAt DESC`. -/
def lastActivityDesc (a b : SessionRow) : Prop := a.LastActivityAt ≥ b.LastActivityAt

instance : DecidableRel lastActivityDesc := fun a b =>
  inferInstanceAs (Decidable (a.LastActivityAt ≥ b.LastActivityAt))

/-- The rows a successful query returns.  `LIMIT 1` without `ORDER BY` keeps the
first matching row of the scan; `ORDER BY` is a stable sort of the matching rows. -/
def Query.run : Query → List SessionRow → List SessionRow
  | .byTokenOrId v, t => (t.filter (fun r => decide (r.Token = v) || decide (r.Id = v))).take 1
  | .byUserId u, t => (t.filter (fun r => decide (r.UserId = u))).insertionSort lastActivityDesc

/-- The result of `SELECT COUNT(*) FROM Sessions WHERE ExpiresAt > :Time`. -/
def countExpiresAfter (time : Int) (t : List SessionRow) : Int :=
  ((t.filter (fun r => decide (r.ExpiresAt > time))).length : Int)

/-- A call that leaves this file: to the database, to the team store, to
`model.Session.PreSave` or to the error log. -/
inductive Call where
  | PreSave
  | MasterExec (s : Stmt)
  | MasterInsert (row : SessionRow)
  | ReplicaSelect (q : Query)
  | ReplicaSelectInt (time : Int)
  | GetTeamsForUser (userId : String)
  | LogError (msgId : String) (err : AppError)
  deriving DecidableEq, Repr

/-- The outcomes the environment chooses: the clock, the pre-save stamping, whether
each backend call fails (`some e` is the text of `err.Error()`), and what the team
store answers. -/
structure Env where
  now : Int
  preSave : Session → Session
  execErr : Option String
  insertErr : Option String
  selectErr : Option String
  selectIntErr : Option String
  teams : String → Except String (List TeamMember)

/-- The state outside the goroutine: the `Sessions` table and the calls made so far. -/
structure World where
  table : List SessionRow
  calls : List Call
  deriving DecidableEq, Repr

/-- Appends a call to the record of calls. -/
def World.record (w : World) (c : Call) : World :=
  { w with calls := w.calls ++ [c] }

/-- The call `me.GetMaster().Exec(stmt, args)`; returns the error, if any. -/
def masterExec (env : Env) (w : World) (s : Stmt) : World × Option String :=
  let w := w.record (.MasterExec s)
  match env.execErr with
  | some e => (w, some e)
  | none => ({ w with table := s.run w.table }, none)

/-- The call `me.GetMaster().Insert(session)`; returns the error, if any. -/
def masterInsert (env : Env) (w : World) (session : Session) : World × Option String :=
  let w := w.record (.MasterInsert session.toSessionRow)
  match env.insertErr with
  | some e => (w, some e)
  | none => ({ w with table := w.table ++ [session.toSessionRow] }, none)

/-- The call `me.GetReplica().Select(&sessions, query, args)`: the error, or the
selected sessions (their `TeamMembers` are not read from the table). -/
def replicaSelect (env : Env) (w : World) (q : Query) : World × Except String (List Session) :=
  let w := w.record (.ReplicaSelect q)
  match env.selectErr with
  | some e => (w, .error e)
  | none => (w, .ok ((q.run w.table).map (fun r => { toSessionRow := r, TeamMembers := [] })))

/-- The call `me.GetReplica().SelectInt(query, {"Time": time})`. -/
def replicaSelectInt (env : Env) (w : World) (time : Int) : World × Except String Int :=
  let w := w.record (.ReplicaSelectInt time)
  match env.selectIntErr with
  | some e => (w, .error e)
  | none => (w, .ok (countExpiresAfter time w.table))

/-- The loop that keeps the members with `DeleteAt == 0`:
`for _, tm := range tempMembers { if tm.DeleteAt == 0 { append } }`. -/
def activeMembers (tempMembers : List TeamMember) : List TeamMember :=
  tempMembers.foldl (fun acc tm => if tm.DeleteAt = 0 then acc ++ [tm] else acc) []

/-! ## The store operations -/

/-- What an operation leaves behind: the world and the channel it returned. -/
structure Out where
  world : World
  chan : StoreChannel
  deriving DecidableEq, Repr

/-- What `Save` leaves behind: also the session its pointer argument points to. -/
structure SaveOut where
  world : World
  session : Session
  chan : StoreChannel
  deriving DecidableEq, Repr

/-- The method `SqlSessionStore.CleanUpExpiredSessions`. -/
def CleanUpExpiredSessions (env : Env) (w : World) (userId : String) : Out :=
  let storeChannel := StoreChannel.make
  let result := StoreResult.empty
  match masterExec env w (.deleteExpired userId env.now) with
  | (w, some err) =>
    let result := { result with Err := some (NewLocAppError "SqlSessionStore.CleanUpExpiredSessions"
      "store.sql_session.cleanup_expired_sessions.app_error" err) }
    { world := w, chan := (storeChannel.send result).close }
  | (w, none) =>
    let result := { result with Data := some (.str userId) }
    { world := w, chan := (storeChannel.send result).close }

/-- The step `if cur := <-me.CleanUpExpiredSessions(userId); cur.Err != nil { l4g.Error(..) }`
shared by `Save` and `GetSessions`; `none` when the receive never returns. -/
def cleanUpAndLog (env : Env) (w : World) (userId msgId : String) : Option World :=
  let o := CleanUpExpiredSessions env w userId
  match o.chan.recv with
  | none => none
  | some cur =>
    match cur.Err with
    | some e => some (o.world.record (.LogError msgId e))
    | none => some o.world

/-- The method `SqlSessionStore.Save`. -/
def Save (env : Env) (w : World) (session : Session) : SaveOut :=
  let storeChannel := StoreChannel.make
  let result := StoreResult.empty
  if session.Id.utf8ByteSize > 0 then
    let result := { result with Err := some (NewLocAppError "SqlSessionStore.Save"
      "store.sql_session.save.existing.app_error" ("id=" ++ session.Id)) }
    { world := w, session := session, chan := (storeChannel.send result).close }
  else
    let session := env.preSave session
    let w := w.record .PreSave
    match cleanUpAndLog env w session.UserId "store.sql_session.save.cleanup.error" with
    | none => { world := w, session := session, chan := storeChannel }
    | some w =>
      let w := w.record (.GetTeamsForUser session.UserId)
      let tcs := env.teams session.UserId
      match masterInsert env w session with
      | (w, some _) =>
        -- result.Err is assigned, then `return`: nothing is sent
        { world := w, session := session, chan := storeChannel }
      | (w, none) =>
        match tcs with
        | .error _ =>
          -- result.Err is assigned, then `return`: nothing is sent
          { world := w, session := session, chan := storeChannel }
        | .ok tempMembers =>
          let session := { session with TeamMembers := activeMembers tempMembers }
          let result := { result with Data := some (.session session) }
          { world := w, session := session, chan := (storeChannel.send result).close }

/-- The method `SqlSessionStore.Get`. -/
def Get (env : Env) (w : World) (sessionIdOrToken : String) : Out :=
  let storeChannel := StoreChannel.make
  let result := StoreResult.empty
  match replicaSelect env w (.byTokenOrId sessionIdOrToken) with
  | (w, .error err) =>
    let result := { result with Err := some (NewLocAppError "SqlSessionStore.Get"
      "store.sql_session.get.app_error" ("sessionIdOrToken=" ++ sessionIdOrToken ++ ", " ++ err)) }
    { world := w, chan := (storeChannel.send result).close }
  | (w, .ok []) =>
    let result := { result with Err := some (NewLocAppError "SqlSessionStore.Get"
      "store.sql_session.get.app_error" ("sessionIdOrToken=" ++ sessionIdOrToken)) }
    { world := w, chan := (storeChannel.send result).close }
  | (w, .ok (s0 :: _)) =>
    let w := w.record (.GetTeamsForUser s0.UserId)
    match env.teams s0.UserId with
    | .error _ =>
      -- result.Err is assigned, then `return`: nothing is sent
      { world := w, chan := storeChannel }
    | .ok tempMembers =>
      let s0 := { s0 with TeamMembers := activeMembers tempMembers }
      let result := { result with Data := some (.session s0) }
      { world := w, chan := (storeChannel.send result).close }

/-- The method `SqlSessionStore.GetSessions`. -/
def GetSessions (env : Env) (w : World) (userId : String) : Out :=
  let storeChannel := StoreChannel.make
  match cleanUpAndLog env w userId "store.sql_session.get_sessions.error" with
  | none => { world := w, chan := storeChannel }
  | some w =>
    let w := w.record (.GetTeamsForUser userId)
    let tcs := env.teams userId
    match replicaSelect env w (.byUserId userId) with
    | (w, .error err) =>
      let result : StoreResult := { Data := none, Err := some (NewLocAppError
        "SqlSessionStore.GetSessions" "store.sql_session.get_sessions.app_error" err) }
      match tcs with
      | .error _ => { world := w, chan := storeChannel }
      | .ok _ => { world := w, chan := (storeChannel.send result).close }
    | (w, .ok sessions) =>
      match tcs with
      | .error _ =>
        -- result.Err is assigned, then `return`: nothing is sent
        { world := w, chan := storeChannel }
      | .ok tempMembers =>
        let sessions := sessions.map (fun s => { s with TeamMembers := activeMembers tempMembers })
        let result : StoreResult := { Data := some (.sessions sessions), Err := none }
        { world := w, chan := (storeChannel.send result).close }

/-- The method `SqlSessionStore.Remove`. -/
def Remove (env : Env) (w : World) (sessionIdOrToken : String) : Out :=
  let storeChannel := StoreChannel.make
  let result := StoreResult.empty
  match masterExec env w (.deleteByIdOrToken sessionIdOrToken) with
  | (w, some err) =>
    let result := { result with Err := some (NewLocAppError "SqlSessionStore.RemoveSession"
      "store.sql_session.remove.app_error" ("id=" ++ sessionIdOrToken ++ ", err=" ++ err)) }
    { world := w, chan := (storeChannel.send result).close }
  | (w, none) => { world := w, chan := (storeChannel.send result).close }

/-- The method `SqlSessionStore.RemoveAllSessions`. -/
def RemoveAllSessions (env : Env) (w : World) : Out :=
  let storeChannel := StoreChannel.make
  let result := StoreResult.empty
  match masterExec env w .deleteAll with
  | (w, some err) =>
    let result := { result with Err := some (NewLocAppError "SqlSessionStore.RemoveAllSessions"
      "store.sql_session.remove_all_sessions_for_team.app_error" err) }
    { world := w, chan := (storeChannel.send result).close }
  | (w, none) => { world := w, chan := (storeChannel.send result).close }

/-- The method `SqlSessionStore.PermanentDeleteSessionsByUser`. -/
def PermanentDeleteSessionsByUser (env : Env) (w : World) (userId : String) : Out :=
  let storeChannel := StoreChannel.make
  let result := StoreResult.empty
  match masterExec env w (.deleteByUserId userId) with
  | (w, some err) =>
    let result := { result with Err := some (NewLocAppError "SqlSessionStore.RemoveAllSessionsForUser"
      "store.sql_session.permanent_delete_sessions_by_user.app_error"
      ("id=" ++ userId ++ ", err=" ++ err)) }
    { world := w, chan := (storeChannel.send result).close }
  | (w, none) => { world := w, chan := (storeChannel.send result).close }

/-- The method `SqlSessionStore.UpdateLastActivityAt`. -/
def UpdateLastActivityAt (env : Env) (w : World) (sessionId : String) (time : Int) : Out :=
  let storeChannel := StoreChannel.make
  let result := StoreResult.empty
  match masterExec env w (.updateLastActivityAt time sessionId) with
  | (w, some _) =>
    let result := { result with Err := some (NewLocAppError "SqlSessionStore.UpdateLastActivityAt"
      "store.sql_session.update_last_activity.app_error" ("sessionId=" ++ sessionId)) }
    { world := w, chan := (storeChannel.send result).close }
  | (w, none) =>
    let result := { result with Data := some (.str sessionId) }
    { world := w, chan := (storeChannel.send result).close }

/-- The method `SqlSessionStore.UpdateRoles`. -/
def UpdateRoles (env : Env) (w : World) (userId roles : String) : Out :=
  let storeChannel := StoreChannel.make
  let result := StoreResult.empty
  match masterExec env w (.updateRoles roles userId) with
  | (w, some _) =>
    let result := { result with Err := some (NewLocAppError "SqlSessionStore.UpdateRoles"
      "store.sql_session.update_roles.app_error" ("userId=" ++ userId)) }
    { world := w, chan := (storeChannel.send result).close }
  | (w, none) =>
    let result := { result with Data := some (.str userId) }
    { world := w, chan := (storeChannel.send result).close }

/-- The method `SqlSessionStore.UpdateDeviceId`. -/
def UpdateDeviceId (env : Env) (w : World) (id deviceId : String) (expiresAt : Int) : Out :=
  let storeChannel := StoreChannel.make
  let result := StoreResult.empty
  match masterExec env w (.updateDeviceId deviceId expiresAt id) with
  | (w, some err) =>
    let result := { result with Err := some (NewLocAppError "SqlSessionStore.UpdateDeviceId"
      "store.sql_session.update_device_id.app_error" err) }
    { world := w, chan := (storeChannel.send result).close }
  | (w, none) =>
    let result := { result with Data := some (.str deviceId) }
    { world := w, chan := (storeChannel.send result).close }

/-- The method `SqlSessionStore.AnalyticsSessionCount`. -/
def AnalyticsSessionCount (env : Env) (w : World) : Out :=
  let storeChannel := StoreChannel.make
  let result := StoreResult.empty
  match replicaSelectInt env w env.now with
  | (w, .error err) =>
    let result := { result with Err := some (NewLocAppError "SqlSessionStore.AnalyticsSessionCount"
      "store.sql_session.analytics_session_count.app_error" err) }
    { world := w, chan := (storeChannel.send result).close }
  | (w, .ok c) =>
    let result := { result with Data := some (.int c) }
    { world := w, chan := (storeChannel.send result).close }

/-! ## Auxiliary definitions for the statements -/

/-- Exactly one of `Data` and `Err` is populated. -/
def StoreResult.exactlyOne (r : StoreResult) : Bool :=
  r.Data.isSome != r.Err.isSome

/-- The channel carries exactly one result, it satisfies `p`, and the channel is closed. -/
def StoreChannel.deliversOne (c : StoreChannel) (p : StoreResult → Bool) : Bool :=
  match c.sent with
  | [r] => p r && c.closed
  | _ => false

/-- A row with the given identifying columns and timestamps, the other columns empty. -/
def mkRow (id token userId : String) (lastActivityAt expiresAt : Int) : SessionRow :=
  { Id := id, Token := token, UserId := userId, DeviceId := "", Roles := "", Props := "",
    CreateAt := 0, LastActivityAt := lastActivityAt, ExpiresAt := expiresAt }

/-- A session built from a row, with no team members attached. -/
def mkSession (r : SessionRow) : Session := { toSessionRow := r, TeamMembers := [] }

/-- A pre-save step for the examples: stamps fixed identifiers and the time 1000. -/
def stampPreSave (s : Session) : Session :=
  { s with Id := "id1", Token := "tok1", CreateAt := 1000, LastActivityAt := 1000 }

/-- An environment for the examples in which every backend call succeeds at time 1000
and every user belongs to one active and one deleted team. -/
def okEnv : Env :=
  { now := 1000, preSave := stampPreSave, execErr := none, insertErr := none,
    selectErr := none, selectIntErr := none,
    teams := fun _ => .ok [⟨"t1", 0⟩, ⟨"t2", 5⟩] }

/-- The empty table with no calls made. -/
def emptyWorld : World := { table := [], calls := [] }

/-- A table for the examples: for user `u1` one expired session (`ExpiresAt = 500`), one
that never expires and one that expires at the current time 1000; for user `u2` one
expired session. -/
def cleanupWorld : World :=
  { table := [mkRow "a" "ta" "u1" 100 500, mkRow "b" "tb" "u1" 300 0,
              mkRow "c" "tc" "u1" 200 1000, mkRow "d" "td" "u2" 50 500],
    calls := [] }

/-- A new session of user `u1`, not yet saved (empty `Id`). -/
def newSession : Session := mkSession (mkRow "" "" "u1" 0 0)

/-- The row `stampPreSave` makes of `newSession`. -/
def savedRow : SessionRow :=
  { Id := "id1", Token := "tok1", UserId := "u1", DeviceId := "", Roles := "", Props := "",
    CreateAt := 1000, LastActivityAt := 1000, ExpiresAt := 0 }

/-- A table holding `savedRow` only. -/
def savedWorld : World := { table := [savedRow], calls := [] }

/-- The saved session decorated with the one active membership of `okEnv`. -/
def savedResult : StoreResult :=
  { Data := some (.session { toSessionRow := savedRow, TeamMembers := [⟨"t1", 0⟩] }),
    Err := none }

/-- The list result holding the decorated saved session. -/
def listResult : StoreResult :=
  { Data := some (.sessions [{ toSessionRow := savedRow, TeamMembers := [⟨"t1", 0⟩] }]),
    Err := none }

/-- Two sessions with distinct identifiers and distinct tokens, where the token of the
first is the identifier of the second. -/
def crossRowA : SessionRow := mkRow "a" "b" "u1" 0 0

/-- The second session: its identifier `b` is the token of `crossRowA`. -/
def crossRowB : SessionRow := mkRow "b" "c" "u2" 0 0

/-- The table scanned in the order `crossRowA`, `crossRowB`. -/
def crossWorld : World := { table := [crossRowA, crossRowB], calls := [] }

/-- The same table scanned in the opposite order. -/
def crossWorldRev : World := { table := [crossRowB, crossRowA], calls := [] }

instance : IsTotal SessionRow lastActivityDesc :=
  ⟨fun a b => le_total b.LastActivityAt a.LastActivityAt⟩

instance : IsTrans SessionRow lastActivityDesc :=
  ⟨fun _ _ _ hab hbc => le_trans hbc hab⟩

/-- A table with three sessions of `u1` whose `LastActivityAt` are 100, 300, 200, and one
session of another user. -/
def orderWorld : World :=
  { table := [mkRow "a" "ta" "u1" 100 0, mkRow "b" "tb" "u1" 300 0,
              mkRow "d" "td" "u2" 400 0, mkRow "c" "tc" "u1" 200 0],
    calls := [] }

/-- A time at which no row of the table has expired: a lower bound of all `ExpiresAt`. -/
def quietTime (t : List SessionRow) : Int :=
  t.foldr (fun r m => min r.ExpiresAt m) 0

/-! ## Lemmas on the building blocks -/

theorem utf8ByteSize_pos_of_ne_empty (s : String) (h : s ≠ "") : 0 < s.utf8ByteSize := by
  rcases s with ⟨l⟩
  cases l with
  | nil => exact absurd rfl h
  | cons c cs =>
    show 0 < String.utf8ByteSize.go (c :: cs)
    simp only [String.utf8ByteSize.go]
    have := Char.utf8Size_pos c
    omega

theorem utf8ByteSize_empty : ("" : String).utf8ByteSize = 0 := rfl

theorem activeMembers_loop (ms acc : List TeamMember) :
    ms.foldl (fun acc tm => if tm.DeleteAt = 0 then acc ++ [tm] else acc) acc
      = acc ++ ms.filter (fun tm => decide (tm.DeleteAt = 0)) := by
  induction ms generalizing acc with
  | nil => simp
  | cons m ms ih =>
    by_cases h : m.DeleteAt = 0
    · simp [List.foldl_cons, ih, h]
    · simp [List.foldl_cons, ih, h]

theorem activeMembers_eq_filter (ms : List TeamMember) :
    activeMembers ms = ms.filter (fun tm => decide (tm.DeleteAt = 0)) := by
  simpa [activeMembers] using activeMembers_loop ms []

theorem cleanUpAndLog_ok (env : Env) (w : World) (userId msgId : String)
    (h : env.execErr = none) :
    cleanUpAndLog env w userId msgId
      = some { table := (Stmt.deleteExpired userId env.now).run w.table,
               calls := w.calls ++ [.MasterExec (.deleteExpired userId env.now)] } := by
  simp [cleanUpAndLog, CleanUpExpiredSessions, masterExec, h, World.record, StoreChannel.recv,
    StoreChannel.send, StoreChannel.close, StoreChannel.make, StoreResult.empty]

theorem cleanUpAndLog_err (env : Env) (w : World) (userId msgId e : String)
    (h : env.execErr = some e) :
    cleanUpAndLog env w userId msgId
      = some { table := w.table,
               calls := w.calls ++ [.MasterExec (.deleteExpired userId env.now)] ++
                 [.LogError msgId (NewLocAppError "SqlSessionStore.CleanUpExpiredSessions"
                    "store.sql_session.cleanup_expired_sessions.app_error" e)] } := by
  simp [cleanUpAndLog, CleanUpExpiredSessions, masterExec, h, World.record, StoreChannel.recv,
    StoreChannel.send, StoreChannel.close, StoreChannel.make, StoreResult.empty]

theorem cleanUpAndLog_isSome (env : Env) (w : World) (userId msgId : String) :
    ∃ w1, cleanUpAndLog env w userId msgId = some w1 := by
  cases h : env.execErr with
  | none => exact ⟨_, cleanUpAndLog_ok env w userId msgId h⟩
  | some e => exact ⟨_, cleanUpAndLog_err env w userId msgId e h⟩

/-! ## Save: failures after the create-only check -/

/-- C1 (the code departs from the claim): whenever `Insert` fails for a session with an
empty `Id`, `Save` returns without sending: the channel stays empty and open, so no error
reaches the caller.  The second part evaluates this at a concrete input. -/
theorem Save_insert_failure_sends_nothing :
    (∀ (env : Env) (w : World) (session : Session) (e : String),
      (Save { env with insertErr := some e } w { session with Id := "" }).chan
        = { sent := [], closed := false }) ∧
    (Save { okEnv with insertErr := some "duplicate key" } emptyWorld
        (mkSession (mkRow "" "" "u1" 0 0))).chan = { sent := [], closed := false } := by
  have key : ∀ (env : Env) (w : World) (session : Session) (e : String),
      (Save { env with insertErr := some e } w { session with Id := "" }).chan
        = { sent := [], closed := false } := by
    intro env w session e
    obtain ⟨w1, hw1⟩ := cleanUpAndLog_isSome { env with insertErr := some e }
      (w.record .PreSave) (env.preSave { session with Id := "" }).UserId
      "store.sql_session.save.cleanup.error"
    simp only [Save, utf8ByteSize_empty, gt_iff_lt, lt_self_iff_false, if_false, hw1]
    simp [masterInsert, StoreChannel.make]
  exact ⟨key, key okEnv emptyWorld (mkSession (mkRow "" "" "u1" 0 0)) "duplicate key"⟩

/-- C2 (the code departs from the claim): when the primary step succeeds and
`GetTeamsForUser` answers with an error, `Save`, `Get` and `GetSessions` all return
without sending: the channel stays empty and open, so the error is never delivered. -/
theorem membership_failure_sends_nothing :
    (∀ (env : Env) (w : World) (session : Session) (e : String),
      (Save { env with insertErr := none, teams := fun _ => .error e } w
        { session with Id := "" }).chan = { sent := [], closed := false }) ∧
    (∀ (env : Env) (w : World) (r : SessionRow) (e : String),
      (Get { env with selectErr := none, teams := fun _ => .error e }
        { w with table := r :: w.table } r.Id).chan = { sent := [], closed := false }) ∧
    (∀ (env : Env) (w : World) (userId e : String),
      (GetSessions { env with selectErr := none, teams := fun _ => .error e } w userId).chan
        = { sent := [], closed := false }) := by
  refine ⟨?_, ?_, ?_⟩
  · intro env w session e
    obtain ⟨w1, hw1⟩ := cleanUpAndLog_isSome
      { env with insertErr := none, teams := fun _ => .error e }
      (w.record .PreSave) (env.preSave { session with Id := "" }).UserId
      "store.sql_session.save.cleanup.error"
    simp only [Save, utf8ByteSize_empty, gt_iff_lt, lt_self_iff_false, if_false, hw1]
    simp [masterInsert, StoreChannel.make]
  · intro env w r e
    simp [Get, replicaSelect, Query.run, World.record, StoreChannel.make]
  · intro env w userId e
    obtain ⟨w1, hw1⟩ := cleanUpAndLog_isSome
      { env with selectErr := none, teams := fun _ => .error e } w userId
      "store.sql_session.get_sessions.error"
    simp only [GetSessions, hw1]
    simp [replicaSelect, StoreChannel.make]

/-! ## Save: create-only -/

/-- C4: for a session whose `Id` is non-empty, `Save` delivers one result carrying the
`store.sql_session.save.existing.app_error` error and no payload, makes no call at all
(no `PreSave`, no cleanup, no membership fetch, no insert), and leaves the table and the
session argument unchanged. -/
theorem Save_existing_id (env : Env) (w : World) (session : Session) (h : session.Id ≠ "") :
    (Save env w session).chan
        = { sent := [{ Data := none,
                       Err := some (NewLocAppError "SqlSessionStore.Save"
                         "store.sql_session.save.existing.app_error" ("id=" ++ session.Id)) }],
            closed := true } ∧
    (Save env w session).world.calls = w.calls ∧
    (Save env w session).world.table = w.table ∧
    (Save env w session).session = session := by
  have hpos := utf8ByteSize_pos_of_ne_empty session.Id h
  simp [Save, hpos, StoreChannel.make, StoreChannel.send, StoreChannel.close, StoreResult.empty]

/-- C4, at a concrete session that already has an identifier. -/
theorem Save_existing_id_witness :
    (mkSession (mkRow "abc" "t" "u1" 0 0)).Id ≠ "" ∧
    ((Save okEnv emptyWorld (mkSession (mkRow "abc" "t" "u1" 0 0))).chan
        = { sent := [{ Data := none,
                       Err := some (NewLocAppError "SqlSessionStore.Save"
                         "store.sql_session.save.existing.app_error"
                         ("id=" ++ (mkSession (mkRow "abc" "t" "u1" 0 0)).Id)) }],
            closed := true } ∧
    (Save okEnv emptyWorld (mkSession (mkRow "abc" "t" "u1" 0 0))).world.calls
        = emptyWorld.calls ∧
    (Save okEnv emptyWorld (mkSession (mkRow "abc" "t" "u1" 0 0))).world.table
        = emptyWorld.table ∧
    (Save okEnv emptyWorld (mkSession (mkRow "abc" "t" "u1" 0 0))).session
        = mkSession (mkRow "abc" "t" "u1" 0 0)) :=
  ⟨by decide, Save_existing_id okEnv emptyWorld (mkSession (mkRow "abc" "t" "u1" 0 0)) (by decide)⟩

/-! ## The shape of delivered results -/

/-- C3 as stated fails: a successful `Remove` (here of an identifier that matches no row)
delivers the zero result, in which neither `Data` nor `Err` is populated. -/
theorem Remove_success_delivers_neither :
    (Remove okEnv emptyWorld "nosuchid").chan.sent = [{ Data := none, Err := none }] ∧
    ¬ (∀ r ∈ (Remove okEnv emptyWorld "nosuchid").chan.sent, r.exactlyOne = true) := by
  decide

/-- C3, amended: for every backend outcome, every result delivered by `Save`, `Get` and
`GetSessions` has exactly one of `Data` and `Err` populated, and at most one is delivered;
on every path that reaches the send (`Save` with a non-empty `Id`, or with a succeeding
insert and membership fetch; `Get` with a failing query, with no matching row, or with a
matching row and a succeeding membership fetch; `GetSessions` with a succeeding membership
fetch) exactly one result is delivered on a closed channel, with `Err` populated on failure
and `Data` on success.  `CleanUpExpiredSessions`, `UpdateLastActivityAt`, `UpdateRoles`,
`UpdateDeviceId` and `AnalyticsSessionCount` deliver one result with exactly one of the two
populated, `Err` exactly when the statement fails.  `Remove`, `RemoveAllSessions` and
`PermanentDeleteSessionsByUser` deliver one result with no `Data`, whose `Err` is populated
exactly when the statement fails, so never both and, on success, neither. -/
theorem delivered_result_shape (env : Env) (w : World) (session : Session)
    (key userId roles deviceId : String) (time : Int) :
    ((Save env w session).chan.sent.all StoreResult.exactlyOne = true ∧
      (Save env w session).chan.sent.length ≤ 1) ∧
    (session.Id ≠ "" →
      (Save env w session).chan.deliversOne (fun r => r.exactlyOne && r.Err.isSome) = true) ∧
    (session.Id = "" → env.insertErr = none →
      ∀ ms, env.teams (env.preSave session).UserId = .ok ms →
      (Save env w session).chan.deliversOne (fun r => r.exactlyOne && r.Data.isSome) = true) ∧
    ((Get env w key).chan.sent.all StoreResult.exactlyOne = true ∧
      (Get env w key).chan.sent.length ≤ 1) ∧
    (∀ err, env.selectErr = some err →
      (Get env w key).chan.deliversOne (fun r => r.exactlyOne && r.Err.isSome) = true) ∧
    (env.selectErr = none → (Query.byTokenOrId key).run w.table = [] →
      (Get env w key).chan.deliversOne (fun r => r.exactlyOne && r.Err.isSome) = true) ∧
    (env.selectErr = none →
      ∀ r0 rs ms, (Query.byTokenOrId key).run w.table = r0 :: rs →
        env.teams r0.UserId = .ok ms →
      (Get env w key).chan.deliversOne (fun r => r.exactlyOne && r.Data.isSome) = true) ∧
    ((GetSessions env w userId).chan.sent.all StoreResult.exactlyOne = true ∧
      (GetSessions env w userId).chan.sent.length ≤ 1) ∧
    (∀ ms, env.teams userId = .ok ms →
      (GetSessions env w userId).chan.deliversOne
        (fun r => r.exactlyOne && (r.Err.isSome == env.selectErr.isSome)) = true) ∧
    (CleanUpExpiredSessions env w userId).chan.deliversOne
      (fun r => r.exactlyOne && (r.Err.isSome == env.execErr.isSome)) = true ∧
    (UpdateLastActivityAt env w key time).chan.deliversOne
      (fun r => r.exactlyOne && (r.Err.isSome == env.execErr.isSome)) = true ∧
    (UpdateRoles env w userId roles).chan.deliversOne
      (fun r => r.exactlyOne && (r.Err.isSome == env.execErr.isSome)) = true ∧
    (UpdateDeviceId env w key deviceId time).chan.deliversOne
      (fun r => r.exactlyOne && (r.Err.isSome == env.execErr.isSome)) = true ∧
    (AnalyticsSessionCount env w).chan.deliversOne
      (fun r => r.exactlyOne && (r.Err.isSome == env.selectIntErr.isSome)) = true ∧
    (Remove env w key).chan.deliversOne
      (fun r => r.Data.isNone && (r.Err.isSome == env.execErr.isSome)) = true ∧
    (RemoveAllSessions env w).chan.deliversOne
      (fun r => r.Data.isNone && (r.Err.isSome == env.execErr.isSome)) = true ∧
    (PermanentDeleteSessionsByUser env w userId).chan.deliversOne
      (fun r => r.Data.isNone && (r.Err.isSome == env.execErr.isSome)) = true := by
  obtain ⟨wS, hwS⟩ := cleanUpAndLog_isSome env (w.record .PreSave)
    (env.preSave session).UserId "store.sql_session.save.cleanup.error"
  obtain ⟨wG, hwG⟩ := cleanUpAndLog_isSome env w userId "store.sql_session.get_sessions.error"
  refine ⟨?_, ?_, ?_, ?_, ?_, ?_, ?_, ?_, ?_, ?_, ?_, ?_, ?_, ?_, ?_, ?_, ?_⟩
  · by_cases hid : session.Id.utf8ByteSize > 0
    · simp [Save, hid, StoreChannel.make, StoreChannel.send, StoreChannel.close,
        StoreResult.empty, StoreResult.exactlyOne]
    · simp only [Save, hid, if_false, hwS]
      cases hi : env.insertErr <;> cases ht : env.teams (env.preSave session).UserId <;>
        simp [masterInsert, hi, ht, StoreChannel.make, StoreChannel.send, StoreChannel.close,
          StoreResult.empty, StoreResult.exactlyOne]
  · intro hne
    have hpos := utf8ByteSize_pos_of_ne_empty session.Id hne
    simp [Save, hpos, StoreChannel.make, StoreChannel.send, StoreChannel.close,
      StoreResult.empty, StoreResult.exactlyOne, StoreChannel.deliversOne]
  · intro hid hi ms ht
    simp only [Save, hid, utf8ByteSize_empty, gt_iff_lt, lt_self_iff_false, if_false, hwS]
    simp [masterInsert, hi, ht, StoreChannel.make, StoreChannel.send, StoreChannel.close,
      StoreResult.empty, StoreResult.exactlyOne, StoreChannel.deliversOne]
  · cases hs : env.selectErr with
    | some e =>
      simp [Get, replicaSelect, hs, StoreChannel.make, StoreChannel.send, StoreChannel.close,
        StoreResult.empty, StoreResult.exactlyOne]
    | none =>
      cases hq : (Query.byTokenOrId key).run (w.record (.ReplicaSelect (.byTokenOrId key))).table with
      | nil =>
        simp [Get, replicaSelect, hs, hq, StoreChannel.make, StoreChannel.send,
          StoreChannel.close, StoreResult.empty, StoreResult.exactlyOne]
      | cons r rs =>
        cases ht : env.teams r.UserId <;>
          simp [Get, replicaSelect, hs, hq, ht, StoreChannel.make, StoreChannel.send,
            StoreChannel.close, StoreResult.empty, StoreResult.exactlyOne]
  · intro err hs
    simp [Get, replicaSelect, hs, StoreChannel.make, StoreChannel.send, StoreChannel.close,
      StoreResult.empty, StoreResult.exactlyOne, StoreChannel.deliversOne]
  · intro hs hq
    have hq2 : (Query.byTokenOrId key).run
        (w.record (.ReplicaSelect (.byTokenOrId key))).table = [] := hq
    simp [Get, replicaSelect, hs, hq2, StoreChannel.make, StoreChannel.send,
      StoreChannel.close, StoreResult.empty, StoreResult.exactlyOne, StoreChannel.deliversOne]
  · intro hs r0 rs ms hq ht
    have hq2 : (Query.byTokenOrId key).run
        (w.record (.ReplicaSelect (.byTokenOrId key))).table = r0 :: rs := hq
    simp [Get, replicaSelect, hs, hq2, ht, StoreChannel.make, StoreChannel.send,
      StoreChannel.close, StoreResult.empty, StoreResult.exactlyOne, StoreChannel.deliversOne]
  · simp only [GetSessions, hwG]
    cases hs : env.selectErr <;> cases ht : env.teams userId <;>
      simp [replicaSelect, hs, ht, StoreChannel.make, StoreChannel.send, StoreChannel.close,
        StoreResult.exactlyOne]
  · intro ms ht
    simp only [GetSessions, hwG]
    cases hs : env.selectErr <;>
      simp [replicaSelect, hs, ht, StoreChannel.make, StoreChannel.send, StoreChannel.close,
        StoreResult.exactlyOne, StoreChannel.deliversOne]
  · cases he : env.execErr <;>
      simp [CleanUpExpiredSessions, masterExec, he, StoreChannel.make, StoreChannel.send,
        StoreChannel.close, StoreResult.empty, StoreResult.exactlyOne, StoreChannel.deliversOne]
  · cases he : env.execErr <;>
      simp [UpdateLastActivityAt, masterExec, he, StoreChannel.make, StoreChannel.send,
        StoreChannel.close, StoreResult.empty, StoreResult.exactlyOne, StoreChannel.deliversOne]
  · cases he : env.execErr <;>
      simp [UpdateRoles, masterExec, he, StoreChannel.make, StoreChannel.send,
        StoreChannel.close, StoreResult.empty, StoreResult.exactlyOne, StoreChannel.deliversOne]
  · cases he : env.execErr <;>
      simp [UpdateDeviceId, masterExec, he, StoreChannel.make, StoreChannel.send,
        StoreChannel.close, StoreResult.empty, StoreResult.exactlyOne, StoreChannel.deliversOne]
  · cases he : env.selectIntErr <;>
      simp [AnalyticsSessionCount, replicaSelectInt, he, StoreChannel.make, StoreChannel.send,
        StoreChannel.close, StoreResult.empty, StoreResult.exactlyOne, StoreChannel.deliversOne]
  · cases he : env.execErr <;>
      simp [Remove, masterExec, he, StoreChannel.make, StoreChannel.send,
        StoreChannel.close, StoreResult.empty, StoreChannel.deliversOne]
  · cases he : env.execErr <;>
      simp [RemoveAllSessions, masterExec, he, StoreChannel.make, StoreChannel.send,
        StoreChannel.close, StoreResult.empty, StoreChannel.deliversOne]
  · cases he : env.execErr <;>
      simp [PermanentDeleteSessionsByUser, masterExec, he, StoreChannel.make, StoreChannel.send,
        StoreChannel.close, StoreResult.empty, StoreChannel.deliversOne]

/-- C3 amended, at concrete inputs: a `Save` of a new session, a `Save` of a session that
already has an identifier, a `Get` by token, a `Get` of an unknown key and a `GetSessions`
each deliver exactly one result with exactly one of `Data` and `Err` populated. -/
theorem delivered_result_shape_witness :
    (newSession.Id = "" ∧ okEnv.insertErr = none ∧ okEnv.selectErr = none ∧
      (mkSession savedRow).Id ≠ "" ∧
      (Query.byTokenOrId "tok1").run savedWorld.table = [savedRow] ∧
      (Query.byTokenOrId "nosuchid").run savedWorld.table = []) ∧
    (Save okEnv emptyWorld newSession).chan.deliversOne
      (fun r => r.exactlyOne && r.Data.isSome) = true ∧
    (Save okEnv savedWorld (mkSession savedRow)).chan.deliversOne
      (fun r => r.exactlyOne && r.Err.isSome) = true ∧
    (Get okEnv savedWorld "tok1").chan.deliversOne
      (fun r => r.exactlyOne && r.Data.isSome) = true ∧
    (Get okEnv savedWorld "nosuchid").chan.deliversOne
      (fun r => r.exactlyOne && r.Err.isSome) = true ∧
    (GetSessions okEnv savedWorld "u1").chan.deliversOne
      (fun r => r.exactlyOne && (r.Err.isSome == okEnv.selectErr.isSome)) = true :=
  ⟨by decide,
    (delivered_result_shape okEnv emptyWorld newSession "tok1" "u1" "" "" 0).2.2.1
      rfl rfl _ rfl,
    (delivered_result_shape okEnv savedWorld (mkSession savedRow) "tok1" "u1" "" "" 0).2.1
      (by decide),
    (delivered_result_shape okEnv savedWorld newSession "tok1" "u1" "" "" 0).2.2.2.2.2.2.1
      rfl savedRow [] _ (by decide) rfl,
    (delivered_result_shape okEnv savedWorld newSession "nosuchid" "u1" "" "" 0).2.2.2.2.2.1
      rfl (by decide),
    (delivered_result_shape okEnv savedWorld newSession "tok1" "u1" "" "" 0).2.2.2.2.2.2.2.2.1
      _ rfl⟩

/-! ## Expiry cleanup -/

theorem isExpiredFor_iff (userId : String) (now : Int) (r : SessionRow) :
    isExpiredFor userId now r = true ↔
      (r.UserId = userId ∧ r.ExpiresAt ≠ 0 ∧ now > r.ExpiresAt) := by
  simp [isExpiredFor, and_assoc]

/-- C5: when its statement succeeds, `CleanUpExpiredSessions(userId)` at time `env.now`
keeps the rows of the table, unchanged and in their order, except those with
`UserId = userId`, `ExpiresAt != 0` and `now > ExpiresAt`: a row of the old table is in the
new one if and only if it does not satisfy that condition, and every kept row keeps its
number of occurrences.  Running it again at the same time changes nothing further, and the
delivered payload is `userId`. -/
theorem CleanUpExpiredSessions_spec (env : Env) (w : World) (userId : String)
    (h : env.execErr = none) :
    (CleanUpExpiredSessions env w userId).world.table.Sublist w.table ∧
    (∀ r ∈ w.table, (r ∉ (CleanUpExpiredSessions env w userId).world.table ↔
        (r.UserId = userId ∧ r.ExpiresAt ≠ 0 ∧ env.now > r.ExpiresAt))) ∧
    (∀ r, ¬ (r.UserId = userId ∧ r.ExpiresAt ≠ 0 ∧ env.now > r.ExpiresAt) →
        (CleanUpExpiredSessions env w userId).world.table.count r = w.table.count r) ∧
    (CleanUpExpiredSessions env (CleanUpExpiredSessions env w userId).world userId).world.table
        = (CleanUpExpiredSessions env w userId).world.table ∧
    (CleanUpExpiredSessions env w userId).chan
        = { sent := [{ Data := some (.str userId), Err := none }], closed := true } := by
  have ht : ∀ w0 : World, (CleanUpExpiredSessions env w0 userId).world.table
      = w0.table.filter (fun r => !isExpiredFor userId env.now r) := by
    intro w0
    simp [CleanUpExpiredSessions, masterExec, h, World.record, Stmt.run]
  refine ⟨?_, ?_, ?_, ?_, ?_⟩
  · rw [ht]; exact List.filter_sublist _
  · intro r hr
    rw [ht, List.mem_filter, ← isExpiredFor_iff]
    simp [hr]
  · intro r hr
    rw [ht, List.count_filter]
    rw [← isExpiredFor_iff] at hr
    simpa using hr
  · rw [ht, ht, List.filter_filter]
    simp
  · simp [CleanUpExpiredSessions, masterExec, h, StoreChannel.make, StoreChannel.send,
      StoreChannel.close, StoreResult.empty]

/-- C5, at a concrete table: only the expired session of `u1` is removed. -/
theorem CleanUpExpiredSessions_spec_witness :
    okEnv.execErr = none ∧
    (CleanUpExpiredSessions okEnv cleanupWorld "u1").world.table
      = [mkRow "b" "tb" "u1" 300 0, mkRow "c" "tc" "u1" 200 1000, mkRow "d" "td" "u2" 50 500] ∧
    (CleanUpExpiredSessions okEnv (CleanUpExpiredSessions okEnv cleanupWorld "u1").world
        "u1").world.table = (CleanUpExpiredSessions okEnv cleanupWorld "u1").world.table ∧
    (CleanUpExpiredSessions okEnv cleanupWorld "u1").chan
      = { sent := [{ Data := some (.str "u1"), Err := none }], closed := true } :=
  ⟨rfl, by decide,
    (CleanUpExpiredSessions_spec okEnv cleanupWorld "u1" rfl).2.2.2.1,
    (CleanUpExpiredSessions_spec okEnv cleanupWorld "u1" rfl).2.2.2.2⟩

/-! ## Membership filtering -/

/-- C6: every result that `Save`, `Get` or `GetSessions` delivers without an error
carries sessions whose `TeamMembers` are exactly the members with `DeleteAt = 0` of the
list `ms` answered by `GetTeamsForUser` for the owner, in the order of `ms`; all sessions
returned by `GetSessions` carry that same sequence. -/
theorem membership_filtering (env : Env) (w : World) (session : Session)
    (key userId : String) (r : StoreResult) (hErr : r.Err = none) :
    (r ∈ (Save env w session).chan.sent →
      ∃ s ms, r.Data = some (.session s) ∧ env.teams s.UserId = .ok ms ∧
        s.TeamMembers = ms.filter (fun tm => decide (tm.DeleteAt = 0))) ∧
    (r ∈ (Get env w key).chan.sent →
      ∃ s ms, r.Data = some (.session s) ∧ env.teams s.UserId = .ok ms ∧
        s.TeamMembers = ms.filter (fun tm => decide (tm.DeleteAt = 0))) ∧
    (r ∈ (GetSessions env w userId).chan.sent →
      ∃ l ms, r.Data = some (.sessions l) ∧ env.teams userId = .ok ms ∧
        ∀ s ∈ l, s.TeamMembers = ms.filter (fun tm => decide (tm.DeleteAt = 0))) := by
  refine ⟨?_, ?_, ?_⟩
  · by_cases hid : session.Id.utf8ByteSize > 0
    · intro hr
      simp [Save, hid, StoreChannel.make, StoreChannel.send, StoreChannel.close,
        StoreResult.empty] at hr
      rw [hr] at hErr
      simp at hErr
    · obtain ⟨w1, hw1⟩ := cleanUpAndLog_isSome env (w.record .PreSave)
        (env.preSave session).UserId "store.sql_session.save.cleanup.error"
      intro hr
      simp only [Save, hid, if_false, hw1] at hr
      cases hi : env.insertErr <;> cases ht : env.teams (env.preSave session).UserId <;>
        simp [masterInsert, hi, ht, StoreChannel.make, StoreChannel.send, StoreChannel.close,
          StoreResult.empty] at hr
      rename_i ms
      subst hr
      exact ⟨_, ms, rfl, ht, activeMembers_eq_filter ms⟩
  · cases hs : env.selectErr with
    | some e =>
      intro hr
      simp [Get, replicaSelect, hs, StoreChannel.make, StoreChannel.send, StoreChannel.close,
        StoreResult.empty] at hr
      rw [hr] at hErr
      simp at hErr
    | none =>
      cases hq : (Query.byTokenOrId key).run (w.record (.ReplicaSelect (.byTokenOrId key))).table with
      | nil =>
        intro hr
        simp [Get, replicaSelect, hs, hq, StoreChannel.make, StoreChannel.send,
          StoreChannel.close, StoreResult.empty] at hr
        rw [hr] at hErr
        simp at hErr
      | cons r0 rs =>
        cases ht : env.teams r0.UserId with
        | error e =>
          simp [Get, replicaSelect, hs, hq, ht, StoreChannel.make]
        | ok ms =>
          intro hr
          simp [Get, replicaSelect, hs, hq, ht, StoreChannel.make, StoreChannel.send,
            StoreChannel.close, StoreResult.empty] at hr
          subst hr
          exact ⟨_, ms, rfl, ht, activeMembers_eq_filter ms⟩
  · obtain ⟨w1, hw1⟩ := cleanUpAndLog_isSome env w userId "store.sql_session.get_sessions.error"
    intro hr
    simp only [GetSessions, hw1] at hr
    cases hs : env.selectErr <;> cases ht : env.teams userId <;>
      simp [replicaSelect, hs, ht, StoreChannel.make, StoreChannel.send, StoreChannel.close] at hr
    · rename_i ms
      subst hr
      refine ⟨_, ms, rfl, rfl, ?_⟩
      intro s hs
      simp only [List.mem_map] at hs
      obtain ⟨a, _, rfl⟩ := hs
      exact activeMembers_eq_filter ms
    · rw [hr] at hErr
      simp at hErr

/-- C6, at concrete inputs: with memberships `[t1 (active), t2 (deleted)]`, the session
delivered by `Save`, by `Get` and in the list of `GetSessions` carries exactly `t1`. -/
theorem membership_filtering_witness :
    (savedResult.Err = none ∧
      savedResult ∈ (Save okEnv emptyWorld newSession).chan.sent ∧
      savedResult ∈ (Get okEnv savedWorld "tok1").chan.sent ∧
      (∃ s ms, savedResult.Data = some (.session s) ∧ okEnv.teams s.UserId = .ok ms ∧
        s.TeamMembers = ms.filter (fun tm => decide (tm.DeleteAt = 0)))) ∧
    (listResult.Err = none ∧
      listResult ∈ (GetSessions okEnv savedWorld "u1").chan.sent ∧
      (∃ l ms, listResult.Data = some (.sessions l) ∧ okEnv.teams "u1" = .ok ms ∧
        ∀ s ∈ l, s.TeamMembers = ms.filter (fun tm => decide (tm.DeleteAt = 0)))) :=
  ⟨⟨rfl, by decide, by decide,
      (membership_filtering okEnv emptyWorld newSession "tok1" "u1" savedResult rfl).1
        (by decide)⟩,
    ⟨rfl, by decide,
      (membership_filtering okEnv savedWorld newSession "tok1" "u1" listResult rfl).2.2
        (by decide)⟩⟩

/-! ## Lookup by identifier or token -/

theorem take_one_filter_eq_singleton (p : SessionRow → Bool) (t : List SessionRow)
    (S : SessionRow) (hS : S ∈ t) (hp : p S = true)
    (huniq : ∀ r ∈ t, p r = true → r = S) :
    (t.filter p).take 1 = [S] := by
  have hmem : S ∈ t.filter p := List.mem_filter.mpr ⟨hS, hp⟩
  cases hf : t.filter p with
  | nil => rw [hf] at hmem; exact absurd hmem (List.not_mem_nil S)
  | cons a l =>
    have ha : a ∈ t.filter p := by rw [hf]; exact List.mem_cons_self a l
    have haS : a = S := huniq a (List.mem_filter.mp ha).1 (List.mem_filter.mp ha).2
    simp [haS]

theorem Get_of_unique_match (env : Env) (w : World) (S : SessionRow) (key : String)
    (ms : List TeamMember) (hS : S ∈ w.table) (hkey : S.Token = key ∨ S.Id = key)
    (huniq : ∀ r ∈ w.table, (r.Token = key ∨ r.Id = key) → r = S)
    (hsel : env.selectErr = none) (hteams : env.teams S.UserId = .ok ms) :
    (Get env w key).chan
      = { sent := [{ Data := some (.session
                       { toSessionRow := S,
                         TeamMembers := ms.filter (fun tm => decide (tm.DeleteAt = 0)) }),
                     Err := none }],
          closed := true } := by
  have hq : (Query.byTokenOrId key).run w.table = [S] := by
    apply take_one_filter_eq_singleton _ _ _ hS
    · simpa using hkey
    · intro r hr hp
      exact huniq r hr (by simpa using hp)
  simp [Get, replicaSelect, hsel, World.record, hq, hteams, StoreChannel.make,
    StoreChannel.send, StoreChannel.close, StoreResult.empty, activeMembers_eq_filter]

/-- C7 as stated fails: in a table whose identifiers are pairwise distinct and whose tokens
are pairwise distinct, `Get(crossRowB.Id)` succeeds and returns `crossRowA`, whose token
equals that identifier; scanned in the opposite order, `Get(crossRowA.Token)` returns
`crossRowB` instead of `crossRowA`. -/
theorem Get_by_id_returns_other_session :
    ((crossWorld.table.map (fun r => r.Id)).Nodup ∧
      (crossWorld.table.map (fun r => r.Token)).Nodup ∧
      crossRowB ∈ crossWorld.table ∧
      (Get okEnv crossWorld crossRowB.Id).chan.sent
        = [{ Data := some (.session { toSessionRow := crossRowA, TeamMembers := [⟨"t1", 0⟩] }),
             Err := none }] ∧
      crossRowA ≠ crossRowB) ∧
    ((crossWorldRev.table.map (fun r => r.Id)).Nodup ∧
      (crossWorldRev.table.map (fun r => r.Token)).Nodup ∧
      crossRowA ∈ crossWorldRev.table ∧
      (Get okEnv crossWorldRev crossRowA.Token).chan.sent
        = [{ Data := some (.session { toSessionRow := crossRowB, TeamMembers := [⟨"t1", 0⟩] }),
             Err := none }]) := by
  decide

/-- C7, amended: in a table whose identifiers are pairwise distinct and whose tokens are
pairwise distinct, for a stored session `S` such that no other session has `S.Id` as its
token and no other session has `S.Token` as its identifier, when the query and the
membership fetch succeed, `Get(S.Id)` and `Get(S.Token)` both deliver a session whose
persisted columns are those of `S` (its `TeamMembers` are the active memberships). -/
theorem Get_lookup_symmetry (env : Env) (w : World) (S : SessionRow) (ms : List TeamMember)
    (hIds : (w.table.map (fun r => r.Id)).Nodup)
    (hTokens : (w.table.map (fun r => r.Token)).Nodup)
    (hS : S ∈ w.table)
    (hTokId : ∀ r ∈ w.table, r.Token = S.Id → r = S)
    (hIdTok : ∀ r ∈ w.table, r.Id = S.Token → r = S)
    (hsel : env.selectErr = none) (hteams : env.teams S.UserId = .ok ms) :
    (Get env w S.Id).chan
      = { sent := [{ Data := some (.session
                       { toSessionRow := S,
                         TeamMembers := ms.filter (fun tm => decide (tm.DeleteAt = 0)) }),
                     Err := none }],
          closed := true } ∧
    (Get env w S.Token).chan
      = { sent := [{ Data := some (.session
                       { toSessionRow := S,
                         TeamMembers := ms.filter (fun tm => decide (tm.DeleteAt = 0)) }),
                     Err := none }],
          closed := true } := by
  constructor
  · refine Get_of_unique_match env w S S.Id ms hS (Or.inr rfl) ?_ hsel hteams
    intro r hr hmatch
    rcases hmatch with h | h
    · exact hTokId r hr h
    · exact List.inj_on_of_nodup_map hIds hr hS h
  · refine Get_of_unique_match env w S S.Token ms hS (Or.inl rfl) ?_ hsel hteams
    intro r hr hmatch
    rcases hmatch with h | h
    · exact List.inj_on_of_nodup_map hTokens hr hS h
    · exact hIdTok r hr h

/-- C7 amended, at a concrete table of four sessions with unrelated identifiers and
tokens: `Get("b")` and `Get("tb")` both deliver the session with `Id = b`, `Token = tb`. -/
theorem Get_lookup_symmetry_witness :
    ((cleanupWorld.table.map (fun r => r.Id)).Nodup ∧
      (cleanupWorld.table.map (fun r => r.Token)).Nodup ∧
      mkRow "b" "tb" "u1" 300 0 ∈ cleanupWorld.table) ∧
    ((Get okEnv cleanupWorld "b").chan
      = { sent := [{ Data := some (.session
                       { toSessionRow := mkRow "b" "tb" "u1" 300 0,
                         TeamMembers := [⟨"t1", 0⟩] }),
                     Err := none }],
          closed := true } ∧
    (Get okEnv cleanupWorld "tb").chan
      = { sent := [{ Data := some (.session
                       { toSessionRow := mkRow "b" "tb" "u1" 300 0,
                         TeamMembers := [⟨"t1", 0⟩] }),
                     Err := none }],
          closed := true }) :=
  ⟨by decide,
    Get_lookup_symmetry okEnv cleanupWorld (mkRow "b" "tb" "u1" 300 0) [⟨"t1", 0⟩, ⟨"t2", 5⟩]
      (by decide) (by decide) (by decide) (by decide) (by decide) rfl rfl⟩

/-! ## Cleanup failures inside Save and GetSessions -/

theorem deleteExpired_run_eq_self (userId : String) (now : Int) (t : List SessionRow)
    (h : ∀ r ∈ t, ¬ (r.UserId = userId ∧ r.ExpiresAt ≠ 0 ∧ now > r.ExpiresAt)) :
    (Stmt.deleteExpired userId now).run t = t := by
  simp only [Stmt.run]
  rw [List.filter_eq_self]
  intro r hr
  have := h r hr
  rw [← isExpiredFor_iff] at this
  simpa using this

theorem quietTime_le (t : List SessionRow) : ∀ r ∈ t, quietTime t ≤ r.ExpiresAt := by
  induction t with
  | nil => intro r hr; exact absurd hr (List.not_mem_nil r)
  | cons a t ih =>
    intro r hr
    rcases List.mem_cons.mp hr with h | h
    · subst h
      exact min_le_left _ _
    · exact le_trans (min_le_right _ _) (ih r h)

theorem Save_chan_session_of_cleanup (env : Env) (w w1 : World) (session : Session)
    (hid : session.Id = "")
    (hc : cleanUpAndLog env (w.record .PreSave) (env.preSave session).UserId
      "store.sql_session.save.cleanup.error" = some w1) :
    (Save env w session).chan
      = (match env.insertErr, env.teams (env.preSave session).UserId with
         | none, .ok ms =>
           { sent := [{ Data := some (.session
                          { env.preSave session with TeamMembers := activeMembers ms }),
                        Err := none }],
             closed := true }
         | _, _ => { sent := [], closed := false }) ∧
    (Save env w session).session
      = (match env.insertErr, env.teams (env.preSave session).UserId with
         | none, .ok ms => { env.preSave session with TeamMembers := activeMembers ms }
         | _, _ => env.preSave session) := by
  simp only [Save, hid, utf8ByteSize_empty, gt_iff_lt, lt_self_iff_false, if_false, hc]
  cases hi : env.insertErr <;> cases ht : env.teams (env.preSave session).UserId <;>
    simp [masterInsert, hi, ht, StoreChannel.make, StoreChannel.send, StoreChannel.close,
      StoreResult.empty]

theorem GetSessions_chan_of_cleanup (env : Env) (w w1 : World) (userId : String)
    (hc : cleanUpAndLog env w userId "store.sql_session.get_sessions.error" = some w1) :
    (GetSessions env w userId).chan
      = (match env.teams userId, env.selectErr with
         | .error _, _ => { sent := [], closed := false }
         | .ok _, some err =>
           { sent := [{ Data := none, Err := some (NewLocAppError "SqlSessionStore.GetSessions"
                          "store.sql_session.get_sessions.app_error" err) }],
             closed := true }
         | .ok ms, none =>
           { sent := [{ Data := some (.sessions (((Query.byUserId userId).run w1.table).map
                          (fun r => { toSessionRow := r, TeamMembers := activeMembers ms }))),
                        Err := none }],
             closed := true }) := by
  simp only [GetSessions, hc]
  cases hs : env.selectErr <;> cases ht : env.teams userId <;>
    simp [replicaSelect, hs, ht, World.record, StoreChannel.make, StoreChannel.send,
      StoreChannel.close, Function.comp_def]

/-- C8: a cleanup failure is not surfaced.  For every input, when the cleanup statement
fails with any error `e`: `Save` still goes on to the membership fetch and the insert, and
`GetSessions` to the membership fetch and the session query (the cleanup error only goes to
the error log); the channel and the session of `Save` are those of the run in which the
cleanup statement succeeds, and its table is the same when the cleanup has no row to delete;
the channel of `GetSessions` is that of every run in which the cleanup succeeds at a time
`t` at which it deletes no row, in particular at `quietTime w.table`; the delivered channels
do not depend on the cleanup error, and no delivered error is the cleanup error.  All of
this holds whatever the outcomes of the insert, the query and the membership fetch. -/
theorem cleanup_failure_not_surfaced (env : Env) (w : World) (session : Session)
    (userId e : String) :
    (session.Id = "" →
      (Save { env with execErr := some e } w session).world.calls
        = w.calls ++ [.PreSave,
            .MasterExec (.deleteExpired (env.preSave session).UserId env.now),
            .LogError "store.sql_session.save.cleanup.error"
              (NewLocAppError "SqlSessionStore.CleanUpExpiredSessions"
                "store.sql_session.cleanup_expired_sessions.app_error" e),
            .GetTeamsForUser (env.preSave session).UserId,
            .MasterInsert (env.preSave session).toSessionRow]) ∧
    ((Save { env with execErr := some e } w session).chan
          = (Save { env with execErr := none } w session).chan ∧
      (Save { env with execErr := some e } w session).session
          = (Save { env with execErr := none } w session).session) ∧
    ((∀ r ∈ w.table, ¬ (r.UserId = (env.preSave session).UserId ∧ r.ExpiresAt ≠ 0 ∧
          env.now > r.ExpiresAt)) →
      (Save { env with execErr := some e } w session).world.table
          = (Save { env with execErr := none } w session).world.table) ∧
    ((GetSessions { env with execErr := some e } w userId).world.calls
        = w.calls ++ [.MasterExec (.deleteExpired userId env.now),
            .LogError "store.sql_session.get_sessions.error"
              (NewLocAppError "SqlSessionStore.CleanUpExpiredSessions"
                "store.sql_session.cleanup_expired_sessions.app_error" e),
            .GetTeamsForUser userId,
            .ReplicaSelect (.byUserId userId)]) ∧
    (∀ t : Int,
      (∀ r ∈ w.table, ¬ (r.UserId = userId ∧ r.ExpiresAt ≠ 0 ∧ t > r.ExpiresAt)) →
      (GetSessions { env with execErr := some e } w userId).chan
          = (GetSessions { env with execErr := none, now := t } w userId).chan) ∧
    ((GetSessions { env with execErr := some e } w userId).chan
        = (GetSessions { env with execErr := none, now := quietTime w.table } w userId).chan) ∧
    (∀ e2 : String,
      (Save { env with execErr := some e2 } w session).chan
          = (Save { env with execErr := some e } w session).chan ∧
      (GetSessions { env with execErr := some e2 } w userId).chan
          = (GetSessions { env with execErr := some e } w userId).chan) ∧
    (∀ r ∈ (Save { env with execErr := some e } w session).chan.sent ++
          (GetSessions { env with execErr := some e } w userId).chan.sent,
      ∀ err, r.Err = some err →
        err.Id ≠ "store.sql_session.cleanup_expired_sessions.app_error") := by
  have hSerr := fun e0 : String => cleanUpAndLog_err { env with execErr := some e0 }
    (w.record .PreSave) (env.preSave session).UserId "store.sql_session.save.cleanup.error"
    e0 rfl
  have hSok := cleanUpAndLog_ok { env with execErr := none } (w.record .PreSave)
    (env.preSave session).UserId "store.sql_session.save.cleanup.error" rfl
  have hGerr := fun e0 : String => cleanUpAndLog_err { env with execErr := some e0 } w userId
    "store.sql_session.get_sessions.error" e0 rfl
  have hGok := fun t : Int => cleanUpAndLog_ok { env with execErr := none, now := t } w userId
    "store.sql_session.get_sessions.error" rfl
  have hGt : ∀ t : Int,
      (∀ r ∈ w.table, ¬ (r.UserId = userId ∧ r.ExpiresAt ≠ 0 ∧ t > r.ExpiresAt)) →
      (GetSessions { env with execErr := some e } w userId).chan
          = (GetSessions { env with execErr := none, now := t } w userId).chan := by
    intro t hnone
    have hrun := deleteExpired_run_eq_self userId t w.table hnone
    rw [GetSessions_chan_of_cleanup _ w _ userId (hGerr e),
      GetSessions_chan_of_cleanup _ w _ userId (hGok t)]
    simp only [hrun]
  refine ⟨?_, ?_, ?_, ?_, hGt, ?_, ?_, ?_⟩
  · intro hid
    simp only [Save, hid, utf8ByteSize_empty, gt_iff_lt, lt_self_iff_false, if_false, hSerr e]
    cases hi : env.insertErr <;> cases ht : env.teams (env.preSave session).UserId <;>
      simp [masterInsert, hi, ht, World.record]
  · by_cases hid : session.Id.utf8ByteSize > 0
    · simp [Save, hid]
    · have hid2 : session.Id = "" := by
        by_contra hne
        exact hid (utf8ByteSize_pos_of_ne_empty session.Id hne)
      have h1 := Save_chan_session_of_cleanup { env with execErr := some e } w _ session hid2
        (hSerr e)
      have h2 := Save_chan_session_of_cleanup { env with execErr := none } w _ session hid2 hSok
      exact ⟨h1.1.trans h2.1.symm, h1.2.trans h2.2.symm⟩
  · intro hnone
    have hrun := deleteExpired_run_eq_self (env.preSave session).UserId env.now w.table hnone
    by_cases hid : session.Id.utf8ByteSize > 0
    · simp [Save, hid]
    · simp only [Save, hid, if_false, hSerr e, hSok]
      simp only [World.record, hrun]
      cases hi : env.insertErr <;> cases ht : env.teams (env.preSave session).UserId <;>
        simp [masterInsert, hi, ht, World.record]
  · simp only [GetSessions, hGerr e]
    cases hs : env.selectErr <;> cases ht : env.teams userId <;>
      simp [replicaSelect, hs, ht, World.record]
  · apply hGt
    intro r hr hexp
    have := quietTime_le w.table r hr
    omega
  · intro e2
    constructor
    · by_cases hid : session.Id.utf8ByteSize > 0
      · simp [Save, hid]
      · have hid2 : session.Id = "" := by
          by_contra hne
          exact hid (utf8ByteSize_pos_of_ne_empty session.Id hne)
        have h1 := Save_chan_session_of_cleanup { env with execErr := some e2 } w _ session
          hid2 (hSerr e2)
        have h2 := Save_chan_session_of_cleanup { env with execErr := some e } w _ session
          hid2 (hSerr e)
        exact h1.1.trans h2.1.symm
    · rw [GetSessions_chan_of_cleanup _ w _ userId (hGerr e2),
        GetSessions_chan_of_cleanup _ w _ userId (hGerr e)]
  · intro r hr err herr
    rw [List.mem_append] at hr
    rcases hr with hr | hr
    · by_cases hid : session.Id.utf8ByteSize > 0
      · simp [Save, hid, StoreChannel.make, StoreChannel.send, StoreChannel.close,
          StoreResult.empty] at hr
        subst hr
        simp only [Option.some.injEq] at herr
        subst herr
        simp only [NewLocAppError]
        decide
      · simp only [Save, hid, if_false, hSerr e] at hr
        cases hi : env.insertErr <;> cases ht : env.teams (env.preSave session).UserId <;>
          simp [masterInsert, hi, ht, StoreChannel.make, StoreChannel.send, StoreChannel.close,
            StoreResult.empty] at hr
        subst hr
        simp at herr
    · simp only [GetSessions, hGerr e] at hr
      cases hs : env.selectErr <;> cases ht : env.teams userId <;>
        simp [replicaSelect, hs, ht, StoreChannel.make, StoreChannel.send,
          StoreChannel.close] at hr
      · subst hr
        simp at herr
      · subst hr
        simp only [Option.some.injEq] at herr
        subst herr
        simp only [NewLocAppError]
        decide

/-- C8, at concrete inputs: the cleanup statement fails with `timeout`.  `Save` of a new
session into the empty table delivers the decorated session, as when the cleanup succeeds;
`GetSessions` on a table that holds an expired session of `u1` delivers all three sessions
of `u1`, the expired one included, as in the run at time 0 whose cleanup deletes no row. -/
theorem cleanup_failure_not_surfaced_witness :
    (newSession.Id = "" ∧
      (∀ r ∈ emptyWorld.table, ¬ (r.UserId = (okEnv.preSave newSession).UserId ∧
        r.ExpiresAt ≠ 0 ∧ okEnv.now > r.ExpiresAt)) ∧
      (∀ r ∈ cleanupWorld.table, ¬ (r.UserId = "u1" ∧ r.ExpiresAt ≠ 0 ∧
        (0 : Int) > r.ExpiresAt))) ∧
    ((Save { okEnv with execErr := some "timeout" } emptyWorld newSession).world.calls
        = emptyWorld.calls ++ [.PreSave,
            .MasterExec (.deleteExpired (okEnv.preSave newSession).UserId okEnv.now),
            .LogError "store.sql_session.save.cleanup.error"
              (NewLocAppError "SqlSessionStore.CleanUpExpiredSessions"
                "store.sql_session.cleanup_expired_sessions.app_error" "timeout"),
            .GetTeamsForUser (okEnv.preSave newSession).UserId,
            .MasterInsert (okEnv.preSave newSession).toSessionRow] ∧
      (Save { okEnv with execErr := some "timeout" } emptyWorld newSession).chan
        = (Save { okEnv with execErr := none } emptyWorld newSession).chan ∧
      (Save { okEnv with execErr := some "timeout" } emptyWorld newSession).world.table
        = (Save { okEnv with execErr := none } emptyWorld newSession).world.table ∧
      (Save { okEnv with execErr := some "timeout" } emptyWorld newSession).chan.sent
        = [savedResult]) ∧
    ((GetSessions { okEnv with execErr := some "timeout" } cleanupWorld "u1").chan
        = (GetSessions { okEnv with execErr := none, now := 0 } cleanupWorld "u1").chan ∧
      (GetSessions { okEnv with execErr := some "timeout" } cleanupWorld "u1").chan.sent
        = [{ Data := some (.sessions
              [{ toSessionRow := mkRow "b" "tb" "u1" 300 0, TeamMembers := [⟨"t1", 0⟩] },
               { toSessionRow := mkRow "c" "tc" "u1" 200 1000, TeamMembers := [⟨"t1", 0⟩] },
               { toSessionRow := mkRow "a" "ta" "u1" 100 500, TeamMembers := [⟨"t1", 0⟩] }]),
             Err := none }]) :=
  ⟨by decide,
    ⟨(cleanup_failure_not_surfaced okEnv emptyWorld newSession "u1" "timeout").1 rfl,
      (cleanup_failure_not_surfaced okEnv emptyWorld newSession "u1" "timeout").2.1.1,
      (cleanup_failure_not_surfaced okEnv emptyWorld newSession "u1" "timeout").2.2.1
        (by decide),
      by decide⟩,
    ⟨(cleanup_failure_not_surfaced okEnv cleanupWorld newSession "u1" "timeout").2.2.2.2.1 0
        (by decide), by decide⟩⟩

/-! ## Counting sessions -/

theorem countExpiresAfter_skip (time : Int) (t1 t2 : List SessionRow) (r : SessionRow)
    (h : ¬ r.ExpiresAt > time) :
    countExpiresAfter time (t1 ++ r :: t2) = countExpiresAfter time (t1 ++ t2) := by
  simp [countExpiresAfter, List.filter_append, List.filter_cons, h]

/-- C9: on query success `AnalyticsSessionCount` at time `env.now` delivers the number of
rows with `ExpiresAt > now`; for `now >= 0` a row with `ExpiresAt = 0` or with
`ExpiresAt = now` does not change the count wherever it stands in the table, and the table
with `ExpiresAt = now - 1, now + 1000, 0` gives 1. -/
theorem AnalyticsSessionCount_spec (env : Env) (w : World) (h : env.selectIntErr = none) :
    (AnalyticsSessionCount env w).chan
      = { sent := [{ Data := some (.int (w.table.countP (fun r => decide (r.ExpiresAt > env.now)))),
                     Err := none }],
          closed := true } ∧
    (0 ≤ env.now → ∀ (t1 t2 : List SessionRow) (r : SessionRow),
      (r.ExpiresAt = 0 ∨ r.ExpiresAt = env.now) →
      (AnalyticsSessionCount env { w with table := t1 ++ r :: t2 }).chan
        = (AnalyticsSessionCount env { w with table := t1 ++ t2 }).chan) ∧
    (0 ≤ env.now →
      (AnalyticsSessionCount env { w with table :=
          [mkRow "a" "ta" "u1" 0 (env.now - 1), mkRow "b" "tb" "u1" 0 (env.now + 1000),
           mkRow "c" "tc" "u1" 0 0] }).chan
        = { sent := [{ Data := some (.int 1), Err := none }], closed := true }) := by
  have hc : ∀ w0 : World, (AnalyticsSessionCount env w0).chan
      = { sent := [{ Data := some (.int (countExpiresAfter env.now w0.table)), Err := none }],
          closed := true } := by
    intro w0
    simp [AnalyticsSessionCount, replicaSelectInt, h, World.record, StoreChannel.make,
      StoreChannel.send, StoreChannel.close, StoreResult.empty]
  refine ⟨?_, ?_, ?_⟩
  · rw [hc]
    simp [countExpiresAfter, List.countP_eq_length_filter]
  · intro hnow t1 t2 r hr
    rw [hc, hc]
    have hnot : ¬ r.ExpiresAt > env.now := by
      rcases hr with h0 | h0 <;> omega
    simp only [countExpiresAfter_skip env.now t1 t2 r hnot]
  · intro hnow
    rw [hc]
    have h3 : ¬ ((0 : Int) > env.now) := by omega
    simp [countExpiresAfter, mkRow, List.filter_cons, h3]

/-- C9, at time 1000: sessions with `ExpiresAt = 999, 2000, 0` give the count 1, and a
session with `ExpiresAt = 1000` is not counted either. -/
theorem AnalyticsSessionCount_spec_witness :
    okEnv.selectIntErr = none ∧ 0 ≤ okEnv.now ∧
    (AnalyticsSessionCount okEnv { emptyWorld with table :=
        [mkRow "a" "ta" "u1" 0 (okEnv.now - 1), mkRow "b" "tb" "u1" 0 (okEnv.now + 1000),
         mkRow "c" "tc" "u1" 0 0] }).chan
      = { sent := [{ Data := some (.int 1), Err := none }], closed := true } ∧
    (AnalyticsSessionCount okEnv { emptyWorld with table :=
        [mkRow "a" "ta" "u1" 0 999, mkRow "d" "td" "u1" 0 1000, mkRow "b" "tb" "u1" 0 2000,
         mkRow "c" "tc" "u1" 0 0] }).chan
      = { sent := [{ Data := some (.int 1), Err := none }], closed := true } :=
  ⟨rfl, by decide,
    (AnalyticsSessionCount_spec okEnv emptyWorld rfl).2.2 (by decide), by decide⟩

/-! ## Listing the sessions of a user -/

theorem map_toSessionRow_decorate (l : List SessionRow) (tms : List TeamMember) :
    (l.map (fun r => ({ toSessionRow := r, TeamMembers := tms } : Session))).map
      Session.toSessionRow = l := by
  induction l with
  | nil => rfl
  | cons a l ih => simp only [List.map_cons, ih]

/-- C10: when cleanup, the query and the membership fetch succeed, `GetSessions(userId)`
delivers one list of sessions; its rows are, up to order, exactly the rows of the table
with that `UserId` which the cleanup does not remove (`ExpiresAt = 0` or `now <= ExpiresAt`),
each as often as it occurs in the table, and the list is ordered by `LastActivityAt`
non-increasing. -/
theorem GetSessions_ordering (env : Env) (w : World) (userId : String) (ms : List TeamMember)
    (hexec : env.execErr = none) (hsel : env.selectErr = none)
    (hteams : env.teams userId = .ok ms) :
    ∃ l, (GetSessions env w userId).chan
        = { sent := [{ Data := some (.sessions l), Err := none }], closed := true } ∧
      (l.map Session.toSessionRow).Perm
        (w.table.filter (fun r => decide (r.UserId = userId) &&
          !(decide (r.ExpiresAt ≠ 0) && decide (env.now > r.ExpiresAt)))) ∧
      (l.map Session.toSessionRow).Pairwise
        (fun a b => a.LastActivityAt ≥ b.LastActivityAt) := by
  have hclean := cleanUpAndLog_ok env w userId "store.sql_session.get_sessions.error" hexec
  refine ⟨((Query.byUserId userId).run ((Stmt.deleteExpired userId env.now).run w.table)).map
    (fun r => { toSessionRow := r, TeamMembers := activeMembers ms }), ?_, ?_, ?_⟩
  · simp only [GetSessions, hclean]
    simp [replicaSelect, hsel, hteams, World.record, StoreChannel.make, StoreChannel.send,
      StoreChannel.close, Function.comp_def]
  · rw [map_toSessionRow_decorate]
    simp only [Query.run, Stmt.run, List.filter_filter]
    refine (List.perm_insertionSort _ _).trans ?_
    refine List.Perm.of_eq (List.filter_congr ?_)
    intro r _
    by_cases h1 : r.UserId = userId <;> simp [isExpiredFor, h1]
  · rw [map_toSessionRow_decorate]
    simp only [Query.run]
    exact List.sorted_insertionSort lastActivityDesc _

/-- C10, at the table with `LastActivityAt` 100, 300, 200: the sessions of `u1` are
delivered in the order 300, 200, 100, without the session of the other user. -/
theorem GetSessions_ordering_witness :
    (okEnv.execErr = none ∧ okEnv.selectErr = none ∧
      okEnv.teams "u1" = .ok [⟨"t1", 0⟩, ⟨"t2", 5⟩]) ∧
    (∃ l, (GetSessions okEnv orderWorld "u1").chan
        = { sent := [{ Data := some (.sessions l), Err := none }], closed := true } ∧
      (l.map Session.toSessionRow).Perm
        (orderWorld.table.filter (fun r => decide (r.UserId = "u1") &&
          !(decide (r.ExpiresAt ≠ 0) && decide (okEnv.now > r.ExpiresAt)))) ∧
      (l.map Session.toSessionRow).Pairwise
        (fun a b => a.LastActivityAt ≥ b.LastActivityAt)) ∧
    (GetSessions okEnv orderWorld "u1").chan.sent
      = [{ Data := some (.sessions
            [{ toSessionRow := mkRow "b" "tb" "u1" 300 0, TeamMembers := [⟨"t1", 0⟩] },
             { toSessionRow := mkRow "c" "tc" "u1" 200 0, TeamMembers := [⟨"t1", 0⟩] },
             { toSessionRow := mkRow "a" "ta" "u1" 100 0, TeamMembers := [⟨"t1", 0⟩] }]),
           Err := none }] :=
  ⟨⟨rfl, rfl, rfl⟩,
    GetSessions_ordering okEnv orderWorld "u1" [⟨"t1", 0⟩, ⟨"t2", 5⟩] rfl rfl rfl,
    by decide⟩

end SqlSessionStore
